import Mathlib

/-!
Shallow embedding of the LiveKit AI Moderation & Safety Console core:
the policy registry, the classify / score / decide / act moderation
pipeline, the decision and audit ledgers, and the admin routes
(policy update and toggle, decision review and overturn), translated
from the Python sources under `backend/app`.

Numeric confidence scores and thresholds (Python floats) are modelled
as rationals; timestamps (`datetime.utcnow()`) as naturals supplied by
the caller; generated ids (`uuid4`-based) as explicit string
parameters.  The in-memory keyed stores (`InMemoryStore`) are
association lists in insertion order; the append-only audit store
(`AppendOnlyStore`) is a plain list.
-/

set_option linter.unusedVariables false

/-- Content policy categories (`app/models/moderation.py`, `PolicyCategory`).
The policy-model enum in `app/models/policy.py` has the same string values
minus `none`; the source compares the two by their `.value` strings, so a
single enumeration is faithful. -/
inductive Cat
  | harassment
  | hate_speech
  | spam
  | violence
  | adult_content
  | none
deriving DecidableEq, Repr

/-- String value of a category, as Python's `.value`. -/
def Cat.value : Cat → String
  | .harassment => "harassment"
  | .hate_speech => "hate_speech"
  | .spam => "spam"
  | .violence => "violence"
  | .adult_content => "adult_content"
  | .none => "none"

/-- Actions that can be taken on content (`ModerationAction`). -/
inductive ModerationAction
  | none
  | warn
  | mute
  | flag_for_review
deriving DecidableEq, Repr

/-- String value of an action. -/
def ModerationAction.value : ModerationAction → String
  | .none => "none"
  | .warn => "warn"
  | .mute => "mute"
  | .flag_for_review => "flag_for_review"

/-- Status of a moderation decision (`ModerationStatus`). -/
inductive ModerationStatus
  | pending
  | executed
  | reviewed
  | overturned
deriving DecidableEq, Repr

/-- Type of content being moderated (`ContentType`). -/
inductive ContentType
  | text
  | audio_transcript
  | video_frame
deriving DecidableEq, Repr

/-- Types of auditable actions (`app/models/audit.py`, `AuditActionType`). -/
inductive AuditActionType
  | decision_created
  | action_executed
  | policy_updated
  | decision_reviewed
  | decision_overturned
  | participant_warned
  | participant_muted
  | content_flagged
deriving DecidableEq, Repr

/-- Actor types for audit entries (`AuditActor`). -/
inductive AuditActor
  | system
  | ai
  | admin
deriving DecidableEq, Repr

/-- Free-form string metadata carried on inputs and decisions; the core
never inspects it, so a key-value list suffices. -/
abbrev MetaKV := List (String × String)

/-- Policy configuration model (`app/models/policy.py`, `Policy`). -/
structure Policy where
  policy_id : String
  name : String
  category : Cat
  description : String
  warn_threshold : ℚ
  mute_threshold : ℚ
  flag_threshold : ℚ
  enabled : Bool
  created_at : Nat
  updated_at : Nat
deriving DecidableEq, Repr

/-- Partial-update schema for a policy (`PolicyUpdate`). -/
structure PolicyUpdate where
  name : Option String := Option.none
  description : Option String := Option.none
  warn_threshold : Option ℚ := Option.none
  mute_threshold : Option ℚ := Option.none
  flag_threshold : Option ℚ := Option.none
  enabled : Option Bool := Option.none
deriving DecidableEq, Repr

/-- Input for the moderation pipeline (`ModerationInput`). -/
structure ModerationInput where
  room_id : String
  participant_id : String
  participant_identity : String
  content : String
  content_type : ContentType := ContentType.text
  metadata : Option MetaKV := Option.none
deriving DecidableEq, Repr

/-- Moderation decision model (`ModerationDecision`). -/
structure ModerationDecision where
  decision_id : String
  room_id : String
  participant_id : String
  participant_identity : String
  content : String
  content_type : ContentType
  classification : Cat
  confidence_score : ℚ
  action : ModerationAction
  status : ModerationStatus
  policy_id : Option String
  timestamp : Nat
  reasoning : Option String
  metadata : Option MetaKV
deriving DecidableEq, Repr

/-- One of the heterogeneous field values appearing in a policy-update
`changes` map (the Python dict holds strings, floats and booleans). -/
inductive FieldVal
  | s (v : String)
  | q (v : ℚ)
  | b (v : Bool)
deriving DecidableEq, Repr

/-- The metadata dict shapes the source attaches to audit entries, one
constructor per construction site. -/
inductive AuditMetadata
  | decisionCreated (decision : ModerationDecision) (input : ModerationInput)
  | actionExecuted (action : ModerationAction)
      (participant_id participant_identity room_id : String)
      (classification : Cat) (confidence : ℚ)
  | decisionReviewed (approved : Bool) (notes : Option String)
      (decision_classification : Cat) (decision_action : ModerationAction)
  | decisionOverturned (original_action : ModerationAction)
      (original_classification : Cat) (original_confidence : ℚ)
  | policyUpdated (policy_id policy_name : String)
      (changes : List (String × FieldVal × FieldVal))
  | policyToggled (policy_id policy_name : String)
      (old_enabled new_enabled : Bool)
deriving DecidableEq, Repr

/-- Whether an audit-metadata value carries a `changes` map of
field-to-old/new pairs. -/
def AuditMetadata.hasChangesMap : AuditMetadata → Bool
  | .policyUpdated _ _ _ => true
  | _ => false

/-- Audit log entry model (`AuditLogEntry`). -/
structure AuditLogEntry where
  audit_id : String
  decision_id : Option String
  action_type : AuditActionType
  actor : AuditActor
  reason : String
  timestamp : Nat
  metadata : Option AuditMetadata
deriving DecidableEq, Repr

/-! Keyed in-memory store (`app/core/storage.py`, `InMemoryStore`):
a Python dict in insertion order.  `storeSet` overwrites an existing
key in place or appends a new binding at the end, exactly the
observable behaviour of dict assignment. -/

/-- Dict lookup (`InMemoryStore.get`). -/
def storeGet {α : Type} : List (String × α) → String → Option α
  | [], _ => Option.none
  | kv :: rest, k => if kv.1 = k then some kv.2 else storeGet rest k

/-- Dict assignment (`InMemoryStore.set`): replace in place, else append. -/
def storeSet {α : Type} : List (String × α) → String → α → List (String × α)
  | [], k, v => [(k, v)]
  | kv :: rest, k, v =>
      if kv.1 = k then (k, v) :: rest else kv :: storeSet rest k v

/-- All values in insertion order (`InMemoryStore.get_all`). -/
def storeGetAll {α : Type} (s : List (String × α)) : List α :=
  s.map Prod.snd

/-! The decision engine (`app/moderation/decider.py`, `ActionDecider`). -/

/-- First stored policy whose category string matches the given category
(`ActionDecider._get_policy_for_category`, a linear scan over
`policies_store.get_all()`). -/
def getPolicyForCategory (policies : List Policy) (category : Cat) : Option Policy :=
  policies.find? (fun p => decide (p.category = category))

/-- The deterministic threshold decision (`ActionDecider.decide`).
Takes the policy list the storage lookup would return, and yields
(action, policy id used). -/
def ActionDecider.decide (policies : List Policy) (category : Cat) (confidence : ℚ) :
    ModerationAction × Option String :=
  if category = Cat.none then (ModerationAction.none, Option.none)
  else
    match getPolicyForCategory policies category with
    | Option.none => (ModerationAction.none, Option.none)
    | some policy =>
        if ¬policy.enabled then (ModerationAction.none, Option.none)
        else if confidence ≥ policy.flag_threshold then
          (ModerationAction.flag_for_review, some policy.policy_id)
        else if confidence ≥ policy.mute_threshold then
          (ModerationAction.mute, some policy.policy_id)
        else if confidence ≥ policy.warn_threshold then
          (ModerationAction.warn, some policy.policy_id)
        else (ModerationAction.none, some policy.policy_id)

/-! The confidence scorer (`app/moderation/scorer.py`, `ConfidenceScorer`).
The external LLM call (prompt, chain invocation and JSON parsing) is
abstracted as an oracle outcome `Except String (ℚ × String)`; the second
component of the result counts the external oracle calls performed. -/

/-- `ConfidenceScorer.score`: short-circuits on category `none` before any
external call, otherwise consults the oracle, clamping the returned
confidence to [0, 1]; an oracle failure is caught and mapped to
confidence 0. -/
def ConfidenceScorer.score (oracle : Except String (ℚ × String))
    (content : String) (category : Cat) (reasoning : String) :
    (ℚ × String) × Nat :=
  if category = Cat.none then ((0, "No violation detected"), 0)
  else
    match oracle with
    | Except.ok (confidence, factors) => ((max 0 (min 1 confidence), factors), 1)
    | Except.error e => ((0, "Scoring error: " ++ e), 1)

/-! The action executor (`app/moderation/actions.py`, `ActionExecutor`).
Generated values are passed explicitly: `decision_id` (uuid), `now`
(`datetime.utcnow()`), and the audit entry ids `aid1`, `aid2`. -/

/-- Rendering of a float with two decimals in an f-string; the exact
decimal rendering is irrelevant to the core, so it is abstracted as the
rational's own printed form. -/
def floatFmt (q : ℚ) : String := toString q

/-- The `ModerationDecision(...)` constructor call in
`ActionExecutor.execute`: a fresh decision with status pending. -/
def mkDecision (input_data : ModerationInput) (decision_id : String) (now : Nat)
    (category : Cat) (confidence : ℚ) (action : ModerationAction)
    (policy_id : Option String) (reasoning : String) : ModerationDecision :=
  { decision_id := decision_id
    room_id := input_data.room_id
    participant_id := input_data.participant_id
    participant_identity := input_data.participant_identity
    content := input_data.content
    content_type := input_data.content_type
    classification := category
    confidence_score := confidence
    action := action
    status := ModerationStatus.pending
    policy_id := policy_id
    timestamp := now
    reasoning := some reasoning
    metadata := input_data.metadata }

/-- The `action_type_map.get(...)` lookup in
`ActionExecutor._execute_action`, default `ACTION_EXECUTED`. -/
def action_type_map : ModerationAction → AuditActionType
  | ModerationAction.warn => AuditActionType.participant_warned
  | ModerationAction.mute => AuditActionType.participant_muted
  | ModerationAction.flag_for_review => AuditActionType.content_flagged
  | ModerationAction.none => AuditActionType.action_executed

/-- `ActionExecutor.execute`: persist the pending decision, append the
`decision_created` audit entry whose metadata snapshots the decision and
input, and, when the action is not `none`, run `_execute_action`: persist
the decision again with status executed and append the mapped
action-execution entry.  Returns the updated decision store, audit store,
and the decision object the caller receives. -/
def ActionExecutor.execute (dstore : List (String × ModerationDecision))
    (astore : List AuditLogEntry) (decision_id : String) (now : Nat)
    (aid1 aid2 : String) (input_data : ModerationInput) (category : Cat)
    (confidence : ℚ) (action : ModerationAction) (policy_id : Option String)
    (reasoning : String) :
    List (String × ModerationDecision) × List AuditLogEntry × ModerationDecision :=
  let decision := mkDecision input_data decision_id now category confidence action
    policy_id reasoning
  let dstore := storeSet dstore decision.decision_id decision
  let entry1 : AuditLogEntry :=
    { audit_id := aid1
      decision_id := some decision.decision_id
      action_type := AuditActionType.decision_created
      actor := AuditActor.ai
      reason := "Moderation decision created: " ++ category.value ++
        " with confidence " ++ floatFmt confidence
      timestamp := now
      metadata := some (AuditMetadata.decisionCreated decision input_data) }
  let astore := astore ++ [entry1]
  if action ≠ ModerationAction.none then
    let decision2 := { decision with status := ModerationStatus.executed }
    let dstore := storeSet dstore decision2.decision_id decision2
    let entry2 : AuditLogEntry :=
      { audit_id := aid2
        decision_id := some decision2.decision_id
        action_type := action_type_map decision2.action
        actor := AuditActor.ai
        reason := "Action executed: " ++ decision2.action.value ++
          " on participant " ++ decision2.participant_identity
        timestamp := now
        metadata := some (AuditMetadata.actionExecuted decision2.action
          decision2.participant_id decision2.participant_identity
          decision2.room_id decision2.classification
          decision2.confidence_score) }
    (dstore, astore ++ [entry2], decision2)
  else
    (dstore, astore, decision)

/-! The pipeline orchestrator (`app/moderation/pipeline.py`): a linear
classify → score → decide → action flow over one `ModerationState`.
The classification oracle (the `classifier.classify` call made by
`classify_node`) is abstracted as an `Except String (Cat × String)`
outcome, an exception carrying its message on failure. -/

/-- State passed through the moderation pipeline (`ModerationState`). -/
structure ModerationState where
  input : ModerationInput
  category : Option Cat
  classification_reasoning : Option String
  confidence : Option ℚ
  scoring_factors : Option String
  action : Option ModerationAction
  policy_id : Option String
  decision : Option ModerationDecision
  error : Option String
deriving DecidableEq, Repr

/-- Python truthiness of an optional string (`if state[...]:`): false for
`None` and for the empty string. -/
def strTruthy : Option String → Bool
  | Option.none => false
  | some s => !s.isEmpty

/-- `classify_node`: on oracle success record category and reasoning; on
failure substitute category `none`, record the failure text as the
reasoning, and set the pipeline-level error field. -/
def classify_node (oracle : Except String (Cat × String))
    (state : ModerationState) : ModerationState :=
  match oracle with
  | Except.ok (category, reasoning) =>
      { state with category := some category,
                   classification_reasoning := some reasoning }
  | Except.error e =>
      { state with category := some Cat.none,
                   classification_reasoning :=
                     some ("Error during classification: " ++ e),
                   error := some e }

/-- `score_node`: runs the scorer on the category produced by the
classify stage.  The fallback branch models the source passing a missing
category into the scorer, whose internal try/except yields confidence 0
with a scoring-error text; it is unreachable after `classify_node`,
which always sets a category. -/
def score_node (oracle : Except String (ℚ × String))
    (state : ModerationState) : ModerationState :=
  match state.category with
  | some category =>
      let r := ConfidenceScorer.score oracle state.input.content category
        (state.classification_reasoning.getD "")
      { state with confidence := some r.1.1, scoring_factors := some r.1.2 }
  | Option.none =>
      { state with confidence := some 0,
                   scoring_factors := some "Scoring error: category is None" }

/-- `decide_node`: calls the pure decision engine on the stored policy
list.  The fallback branch models the except clause substituting action
`none`; it is unreachable in the composed pipeline, where category and
confidence are always set by the earlier stages. -/
def decide_node (policies : List Policy) (state : ModerationState) :
    ModerationState :=
  match state.category, state.confidence with
  | some category, some confidence =>
      let r := ActionDecider.decide policies category confidence
      { state with action := some r.1, policy_id := r.2 }
  | _, _ =>
      { state with action := some ModerationAction.none,
                   policy_id := Option.none,
                   error := some "decide error" }

/-- Whole-system state: the policy registry, the decision ledger and the
append-only audit ledger (`app/core/storage.py` module instances). -/
structure SysState where
  policies : List (String × Policy)
  decisions : List (String × ModerationDecision)
  audit : List AuditLogEntry
deriving DecidableEq, Repr

/-- `action_node`: combine the classification and scoring rationales and
run the executor.  The fallback branch models the except clause (a
missing category, confidence or action makes the decision constructor
raise, leaving the stores untouched and the decision absent); it is
unreachable in the composed pipeline. -/
def action_node (s : SysState) (state : ModerationState)
    (decision_id : String) (now : Nat) (aid1 aid2 : String) :
    SysState × ModerationState :=
  match state.category, state.confidence, state.action with
  | some category, some confidence, some action =>
      let parts :=
        (if strTruthy state.classification_reasoning then
          ["Classification: " ++ state.classification_reasoning.getD ""]
         else []) ++
        (if strTruthy state.scoring_factors then
          ["Scoring: " ++ state.scoring_factors.getD ""]
         else [])
      let full_reasoning := String.intercalate " | " parts
      let r := ActionExecutor.execute s.decisions s.audit decision_id now
        aid1 aid2 state.input category confidence action state.policy_id
        full_reasoning
      ({ s with decisions := r.1, audit := r.2.1 },
       { state with decision := some r.2.2 })
  | _, _, _ => (s, { state with error := some "action error" })

/-- `moderate_content` driving the compiled linear graph: classify,
score, decide, act over a fresh initial state. -/
def runModerationPipeline (s : SysState)
    (clOracle : Except String (Cat × String))
    (scOracle : Except String (ℚ × String)) (input : ModerationInput)
    (decision_id : String) (now : Nat) (aid1 aid2 : String) :
    SysState × ModerationState :=
  let st0 : ModerationState :=
    { input := input
      category := Option.none
      classification_reasoning := Option.none
      confidence := Option.none
      scoring_factors := Option.none
      action := Option.none
      policy_id := Option.none
      decision := Option.none
      error := Option.none }
  let st1 := classify_node clOracle st0
  let st2 := score_node scOracle st1
  let st3 := decide_node (storeGetAll s.policies) st2
  action_node s st3 decision_id now aid1 aid2

/-! Admin API routes (`app/api/routes/moderation.py` and
`app/api/routes/policies.py`).  HTTP failures become a typed error;
broadcast calls are fire-and-forget and carry no core state, so they
are omitted. -/

/-- The typed request-level failures the routes surface. -/
inductive ApiError
  | notFound
  | alreadyOverturned
  | invalidThresholds
deriving DecidableEq, Repr

/-- `review_decision`: set the decision status to reviewed (from any
starting status) and append one `decision_reviewed` audit entry. -/
def review_decision (s : SysState) (decision_id : String) (approved : Bool)
    (notes : Option String) (aid : String) (now : Nat) :
    SysState × Except ApiError ModerationStatus :=
  match storeGet s.decisions decision_id with
  | Option.none => (s, Except.error ApiError.notFound)
  | some decision =>
      let decision := { decision with status := ModerationStatus.reviewed }
      let decisions := storeSet s.decisions decision_id decision
      let entry : AuditLogEntry :=
        { audit_id := aid
          decision_id := some decision_id
          action_type := AuditActionType.decision_reviewed
          actor := AuditActor.admin
          reason := "Decision reviewed: " ++
            (if approved then "approved" else "rejected") ++ ". " ++
            notes.getD ""
          timestamp := now
          metadata := some (AuditMetadata.decisionReviewed approved notes
            decision.classification decision.action) }
      ({ s with decisions := decisions, audit := s.audit ++ [entry] },
       Except.ok decision.status)

/-- `overturn_decision`: a 404 on an unknown id, a conflict when the
decision is already overturned, otherwise set the status to overturned
and append one `decision_overturned` audit entry. -/
def overturn_decision (s : SysState) (decision_id : String) (reason : String)
    (aid : String) (now : Nat) : SysState × Except ApiError ModerationStatus :=
  match storeGet s.decisions decision_id with
  | Option.none => (s, Except.error ApiError.notFound)
  | some decision =>
      if decision.status = ModerationStatus.overturned then
        (s, Except.error ApiError.alreadyOverturned)
      else
        let old_action := decision.action
        let decision := { decision with status := ModerationStatus.overturned }
        let decisions := storeSet s.decisions decision_id decision
        let entry : AuditLogEntry :=
          { audit_id := aid
            decision_id := some decision_id
            action_type := AuditActionType.decision_overturned
            actor := AuditActor.admin
            reason := reason
            timestamp := now
            metadata := some (AuditMetadata.decisionOverturned old_action
              decision.classification decision.confidence_score) }
        ({ s with decisions := decisions, audit := s.audit ++ [entry] },
         Except.ok decision.status)

/-- The per-field `changes` map built by `update_policy`, in the order
the source checks the fields; a supplied field is recorded with its old
and new value even when the two are equal. -/
def policyChanges (policy : Policy) (update : PolicyUpdate) :
    List (String × FieldVal × FieldVal) :=
  (match update.name with
   | some v => [("name", (FieldVal.s policy.name, FieldVal.s v))]
   | Option.none => []) ++
  (match update.description with
   | some v => [("description", (FieldVal.s policy.description, FieldVal.s v))]
   | Option.none => []) ++
  (match update.warn_threshold with
   | some v => [("warn_threshold", (FieldVal.q policy.warn_threshold, FieldVal.q v))]
   | Option.none => []) ++
  (match update.mute_threshold with
   | some v => [("mute_threshold", (FieldVal.q policy.mute_threshold, FieldVal.q v))]
   | Option.none => []) ++
  (match update.flag_threshold with
   | some v => [("flag_threshold", (FieldVal.q policy.flag_threshold, FieldVal.q v))]
   | Option.none => []) ++
  (match update.enabled with
   | some v => [("enabled", (FieldVal.b policy.enabled, FieldVal.b v))]
   | Option.none => [])

/-- The sequential field assignments of `update_policy` applied to the
policy object: each supplied field replaces the stored one. -/
def mergePolicy (policy : Policy) (update : PolicyUpdate) : Policy :=
  { policy with
    name := update.name.getD policy.name
    description := update.description.getD policy.description
    warn_threshold := update.warn_threshold.getD policy.warn_threshold
    mute_threshold := update.mute_threshold.getD policy.mute_threshold
    flag_threshold := update.flag_threshold.getD policy.flag_threshold
    enabled := update.enabled.getD policy.enabled }

/-- `update_policy`: look the policy up, apply the supplied fields,
validate the threshold ordering on the fully merged record, and on
success refresh `updated_at`, persist, and append a `policy_updated`
audit entry when at least one field was supplied.

The source applies the field assignments to the very object held by the
store (`InMemoryStore.get` returns the stored reference), so when the
validation fails the merged fields are already visible in the store even
though no `set`, no `updated_at` refresh and no audit append happen. -/
def update_policy (s : SysState) (policy_id : String) (update : PolicyUpdate)
    (aid : String) (now : Nat) : SysState × Except ApiError Policy :=
  match storeGet s.policies policy_id with
  | Option.none => (s, Except.error ApiError.notFound)
  | some policy =>
      let changes := policyChanges policy update
      let merged := mergePolicy policy update
      if merged.warn_threshold ≤ merged.mute_threshold ∧
         merged.mute_threshold ≤ merged.flag_threshold then
        let final := { merged with updated_at := now }
        let policies := storeSet s.policies policy_id final
        if changes.isEmpty then
          ({ s with policies := policies }, Except.ok final)
        else
          let entry : AuditLogEntry :=
            { audit_id := aid
              decision_id := Option.none
              action_type := AuditActionType.policy_updated
              actor := AuditActor.admin
              reason := "Policy \x27" ++ final.name ++ "\x27 updated"
              timestamp := now
              metadata := some (AuditMetadata.policyUpdated policy_id
                final.name changes) }
          ({ s with policies := policies, audit := s.audit ++ [entry] },
           Except.ok final)
      else
        ({ s with policies := storeSet s.policies policy_id merged },
         Except.error ApiError.invalidThresholds)

/-- `toggle_policy`: flip `enabled`, refresh `updated_at`, persist, and
append one `policy_updated` audit entry whose metadata records the old
and new enabled flags directly. -/
def toggle_policy (s : SysState) (policy_id : String) (aid : String)
    (now : Nat) : SysState × Except ApiError Bool :=
  match storeGet s.policies policy_id with
  | Option.none => (s, Except.error ApiError.notFound)
  | some policy =>
      let old_enabled := policy.enabled
      let policy := { policy with enabled := !policy.enabled, updated_at := now }
      let policies := storeSet s.policies policy_id policy
      let entry : AuditLogEntry :=
        { audit_id := aid
          decision_id := Option.none
          action_type := AuditActionType.policy_updated
          actor := AuditActor.admin
          reason := "Policy \x27" ++ policy.name ++ "\x27 " ++
            (if policy.enabled then "enabled" else "disabled")
          timestamp := now
          metadata := some (AuditMetadata.policyToggled policy_id policy.name
            old_enabled policy.enabled) }
      ({ s with policies := policies, audit := s.audit ++ [entry] },
       Except.ok policy.enabled)

/-! List/query endpoints (`app/api/routes/audit.py` `list_audit_logs`,
`app/api/routes/moderation.py` `list_decisions`).  Python's
`list.sort(key=..., reverse=True)` is a stable descending sort by
timestamp, modelled by a stable insertion sort. -/

/-- Stable descending insert by key: the element passes over strictly
greater keys and lands before the first key less than or equal to its
own, preserving the original order of equal keys. -/
def insertDescBy {α : Type} (key : α → Nat) (x : α) : List α → List α
  | [] => [x]
  | y :: ys =>
      if key y > key x then y :: insertDescBy key x ys else x :: y :: ys

/-- Stable descending sort by key. -/
def sortDescBy {α : Type} (key : α → Nat) : List α → List α
  | [] => []
  | x :: xs => insertDescBy key x (sortDescBy key xs)

/-- Python slice `l[offset : offset + limit]`. -/
def paginate {α : Type} (l : List α) (offset limit : Nat) : List α :=
  (l.drop offset).take limit

/-- `list_audit_logs`: filter, sort newest first, paginate.  String
filters are guarded by Python truthiness (skipped when `None` or empty),
the enum and time filters only by presence. -/
def list_audit_logs (entries : List AuditLogEntry)
    (decision_id : Option String) (action_type : Option AuditActionType)
    (actor : Option AuditActor) (start_time end_time : Option Nat)
    (limit offset : Nat) : List AuditLogEntry :=
  let entries := if strTruthy decision_id then
    entries.filter (fun e => decide (e.decision_id = decision_id)) else entries
  let entries := match action_type with
    | some a => entries.filter (fun e => decide (e.action_type = a))
    | Option.none => entries
  let entries := match actor with
    | some a => entries.filter (fun e => decide (e.actor = a))
    | Option.none => entries
  let entries := match start_time with
    | some t => entries.filter (fun e => decide (t ≤ e.timestamp))
    | Option.none => entries
  let entries := match end_time with
    | some t => entries.filter (fun e => decide (e.timestamp ≤ t))
    | Option.none => entries
  paginate (sortDescBy (fun e => e.timestamp) entries) offset limit

/-- `list_decisions`: filter, sort newest first, paginate.  The string
filters (`room_id`, `participant_id`) are guarded by Python truthiness;
the enum filters by presence; the confidence bounds by an explicit
`is not None` check. -/
def list_decisions (decisions : List ModerationDecision)
    (room_id participant_id : Option String) (classification : Option Cat)
    (action : Option ModerationAction) (status : Option ModerationStatus)
    (min_confidence max_confidence : Option ℚ) (limit offset : Nat) :
    List ModerationDecision :=
  let decisions := if strTruthy room_id then
    decisions.filter (fun d => decide (some d.room_id = room_id)) else decisions
  let decisions := if strTruthy participant_id then
    decisions.filter (fun d => decide (some d.participant_id = participant_id))
    else decisions
  let decisions := match classification with
    | some c => decisions.filter (fun d => decide (d.classification = c))
    | Option.none => decisions
  let decisions := match action with
    | some a => decisions.filter (fun d => decide (d.action = a))
    | Option.none => decisions
  let decisions := match status with
    | some st => decisions.filter (fun d => decide (d.status = st))
    | Option.none => decisions
  let decisions := match min_confidence with
    | some m => decisions.filter (fun d => decide (m ≤ d.confidence_score))
    | Option.none => decisions
  let decisions := match max_confidence with
    | some m => decisions.filter (fun d => decide (d.confidence_score ≤ m))
    | Option.none => decisions
  paginate (sortDescBy (fun d => d.timestamp) decisions) offset limit

/-- String value of an audit action type, as Python's `.value`. -/
def AuditActionType.value : AuditActionType → String
  | .decision_created => "decision_created"
  | .action_executed => "action_executed"
  | .policy_updated => "policy_updated"
  | .decision_reviewed => "decision_reviewed"
  | .decision_overturned => "decision_overturned"
  | .participant_warned => "participant_warned"
  | .participant_muted => "participant_muted"
  | .content_flagged => "content_flagged"

/-- String value of an audit actor, as Python's `.value`. -/
def AuditActor.value : AuditActor → String
  | .system => "system"
  | .ai => "ai"
  | .admin => "admin"

/-- The export format query parameter; the route's pattern validation
admits only json and csv. -/
inductive ExportFormat
  | json
  | csv
deriving DecidableEq, Repr

/-- Rendering of a timestamp in an export (`datetime.isoformat()`),
abstracted as the model timestamp's printed form. -/
def isoFmt (t : Nat) : String := toString t

/-- The body of an export response: the json branch carries the dumped
entries, the csv branch the header and data rows. -/
inductive ExportResult
  | json (count : Nat) (entries : List AuditLogEntry)
  | csv (count : Nat) (rows : List (List String))
deriving DecidableEq, Repr

/-- `export_audit_logs` (`app/api/routes/audit.py`): the same filter
chain as the list endpoint (the string filter guarded by Python
truthiness, the rest by presence), sort newest first, no pagination,
then render the result as json or csv. -/
def export_audit_logs (entries : List AuditLogEntry) (format : ExportFormat)
    (decision_id : Option String) (action_type : Option AuditActionType)
    (actor : Option AuditActor) (start_time end_time : Option Nat) :
    ExportResult :=
  let entries := if strTruthy decision_id then
    entries.filter (fun e => decide (e.decision_id = decision_id)) else entries
  let entries := match action_type with
    | some a => entries.filter (fun e => decide (e.action_type = a))
    | Option.none => entries
  let entries := match actor with
    | some a => entries.filter (fun e => decide (e.actor = a))
    | Option.none => entries
  let entries := match start_time with
    | some t => entries.filter (fun e => decide (t ≤ e.timestamp))
    | Option.none => entries
  let entries := match end_time with
    | some t => entries.filter (fun e => decide (e.timestamp ≤ t))
    | Option.none => entries
  let sorted := sortDescBy (fun e => e.timestamp) entries
  match format with
  | ExportFormat.json => ExportResult.json sorted.length sorted
  | ExportFormat.csv =>
      ExportResult.csv sorted.length
        (["audit_id", "decision_id", "action_type", "actor", "reason",
          "timestamp"] ::
         sorted.map (fun e =>
           [e.audit_id, e.decision_id.getD "", e.action_type.value,
            e.actor.value, e.reason, isoFmt e.timestamp]))

/-! Core operations as a step relation, for properties quantified over
reachable sequences: pipeline execution, review and overturn. -/

/-- One core operation. -/
inductive Op
  | pipeline (clOracle : Except String (Cat × String))
      (scOracle : Except String (ℚ × String)) (input : ModerationInput)
      (decision_id : String) (now : Nat) (aid1 aid2 : String)
  | review (decision_id : String) (approved : Bool) (notes : Option String)
      (aid : String) (now : Nat)
  | overturn (decision_id reason aid : String) (now : Nat)

/-- Apply one core operation to the system state; a failing route leaves
the state unchanged. -/
def applyOp (s : SysState) : Op → SysState
  | Op.pipeline cl sc input did now a1 a2 =>
      (runModerationPipeline s cl sc input did now a1 a2).1
  | Op.review did approved notes aid now =>
      (review_decision s did approved notes aid now).1
  | Op.overturn did reason aid now =>
      (overturn_decision s did reason aid now).1

/-- Apply a sequence of core operations from left to right. -/
def applyOps (s : SysState) : List Op → SysState
  | [] => s
  | op :: rest => applyOps (applyOp s op) rest

/-- The seeded policy registry
(`app/core/storage.py`, `initialize_default_policies`), with the model
timestamp 0 for creation. -/
def defaultPolicies : List (String × Policy) :=
  [("policy-harassment",
    { policy_id := "policy-harassment", name := "Harassment",
      category := Cat.harassment,
      description := "Content that harasses, intimidates, or bullies individuals",
      warn_threshold := 0.5, mute_threshold := 0.7, flag_threshold := 0.85,
      enabled := true, created_at := 0, updated_at := 0 }),
   ("policy-hate-speech",
    { policy_id := "policy-hate-speech", name := "Hate Speech",
      category := Cat.hate_speech,
      description := "Content that promotes hatred against protected groups",
      warn_threshold := 0.4, mute_threshold := 0.6, flag_threshold := 0.75,
      enabled := true, created_at := 0, updated_at := 0 }),
   ("policy-spam",
    { policy_id := "policy-spam", name := "Spam",
      category := Cat.spam,
      description := "Repetitive, promotional, or unsolicited content",
      warn_threshold := 0.6, mute_threshold := 0.8, flag_threshold := 0.9,
      enabled := true, created_at := 0, updated_at := 0 }),
   ("policy-violence",
    { policy_id := "policy-violence", name := "Violence",
      category := Cat.violence,
      description := "Content that promotes or glorifies violence",
      warn_threshold := 0.4, mute_threshold := 0.6, flag_threshold := 0.75,
      enabled := true, created_at := 0, updated_at := 0 }),
   ("policy-adult-content",
    { policy_id := "policy-adult-content", name := "Adult Content",
      category := Cat.adult_content,
      description := "Sexually explicit or mature content",
      warn_threshold := 0.5, mute_threshold := 0.7, flag_threshold := 0.85,
      enabled := true, created_at := 0, updated_at := 0 })]

/-- The application state right after startup seeding. -/
def initialState : SysState :=
  { policies := defaultPolicies, decisions := [], audit := [] }

/-! Remaining helper definitions used by the statements. -/

/-- Decision mapping as the specification describes it: category `none`
yields (none, null) with no dependence on the registry; a missing or
disabled matching policy yields (none, null); otherwise the confidence
is compared against the matched policy's thresholds from highest to
lowest, and the matched policy's id is reported even when the resulting
action is `none`. -/
def decideSpec (policies : List Policy) (category : Cat) (confidence : ℚ) :
    ModerationAction × Option String :=
  if category = Cat.none then (ModerationAction.none, Option.none)
  else
    match getPolicyForCategory policies category with
    | Option.none => (ModerationAction.none, Option.none)
    | some policy =>
        if policy.enabled then
          ((if confidence ≥ policy.flag_threshold then
              ModerationAction.flag_for_review
            else if confidence ≥ policy.mute_threshold then ModerationAction.mute
            else if confidence ≥ policy.warn_threshold then ModerationAction.warn
            else ModerationAction.none),
           some policy.policy_id)
        else (ModerationAction.none, Option.none)

/-- The action-executed family of audit entry types: the generic type
plus the three action-specific ones. -/
def isActionExecutedFamily : AuditActionType → Bool
  | AuditActionType.action_executed => true
  | AuditActionType.participant_warned => true
  | AuditActionType.participant_muted => true
  | AuditActionType.content_flagged => true
  | _ => false

/-- Freshness of the generated decision id of a pipeline operation,
the model-side counterpart of uuid uniqueness; other operations generate
no decision id. -/
def opFresh (s : SysState) : Op → Prop
  | Op.pipeline _ _ _ did _ _ _ => storeGet s.decisions did = Option.none
  | _ => True

/-- A sample pending decision used for concrete evaluations. -/
def sampleDecision : ModerationDecision :=
  { decision_id := "dec-1"
    room_id := "room-1"
    participant_id := "user-1"
    participant_identity := "alice"
    content := "hello"
    content_type := ContentType.text
    classification := Cat.harassment
    confidence_score := 0.9
    action := ModerationAction.flag_for_review
    status := ModerationStatus.pending
    policy_id := some "policy-harassment"
    timestamp := 1
    reasoning := some "r"
    metadata := Option.none }

/-- A sample system state holding one pending decision. -/
def sampleState : SysState :=
  { policies := defaultPolicies
    decisions := [("dec-1", sampleDecision)]
    audit := [] }

/-- The seeded spam policy, spelled out for concrete evaluations. -/
def spamPolicy : Policy :=
  { policy_id := "policy-spam", name := "Spam", category := Cat.spam,
    description := "Repetitive, promotional, or unsolicited content",
    warn_threshold := 0.6, mute_threshold := 0.8, flag_threshold := 0.9,
    enabled := true, created_at := 0, updated_at := 0 }

/-- The seeded harassment policy, spelled out for concrete evaluations. -/
def harassmentPolicy : Policy :=
  { policy_id := "policy-harassment", name := "Harassment",
    category := Cat.harassment,
    description := "Content that harasses, intimidates, or bullies individuals",
    warn_threshold := 0.5, mute_threshold := 0.7, flag_threshold := 0.85,
    enabled := true, created_at := 0, updated_at := 0 }

/-- A sample pipeline input used for concrete evaluations. -/
def sampleInput : ModerationInput :=
  { room_id := "room-1"
    participant_id := "user-1"
    participant_identity := "alice"
    content := "some text"
    content_type := ContentType.text
    metadata := Option.none }

/-! Theorems.  First the store lemmas, then one theorem per claim. -/

theorem storeGet_storeSet_self {α : Type} (s : List (String × α)) (k : String) (v : α) :
    storeGet (storeSet s k v) k = some v := by
  induction s with
  | nil => simp [storeGet, storeSet]
  | cons kv rest ih =>
      by_cases h : kv.1 = k
      · simp [storeGet, storeSet, h]
      · simp [storeGet, storeSet, h, ih]

theorem storeGet_storeSet_ne {α : Type} (s : List (String × α)) (k k' : String) (v : α)
    (h : k' ≠ k) : storeGet (storeSet s k v) k' = storeGet s k' := by
  induction s with
  | nil => simp [storeGet, storeSet, Ne.symm h]
  | cons kv rest ih =>
      by_cases hk : kv.1 = k
      · simp [storeGet, storeSet, hk, Ne.symm h]
      · simp [storeGet, storeSet, hk, ih]

/-- C3: the decision engine returns (none, null) for category none with
no dependence on the registry, (none, null) when the matching policy is
missing or disabled, and otherwise the highest-to-lowest threshold
comparison with the matched policy's id reported even for action none:
`ActionDecider.decide` coincides with the specification mapping
`decideSpec` on every input. -/
theorem decide_matches_threshold_spec (policies : List Policy) (category : Cat)
    (confidence : ℚ) :
    ActionDecider.decide policies category confidence =
      decideSpec policies category confidence := by
  unfold ActionDecider.decide decideSpec
  by_cases h : category = Cat.none
  · simp [h]
  · simp only [h, if_false]
    cases getPolicyForCategory policies category with
    | none => rfl
    | some policy =>
        dsimp only
        by_cases he : policy.enabled
        · simp only [he, not_true_eq_false, if_false, if_true]
          split_ifs <;> rfl
        · simp [he]

/-- C7 (counterexample): at a concrete input with category none, the
scorer's short-circuit rationale is the capitalized string, not the
lower-case string the claim names. -/
theorem score_none_rationale_differs :
    (ConfidenceScorer.score (Except.error "boom") "hello" Cat.none "r").1.2 =
        "No violation detected" ∧
    ¬ (ConfidenceScorer.score (Except.error "boom") "hello" Cat.none "r").1.2 =
        "no violation detected" := by
  constructor
  · rfl
  · decide

/-- C7 (amended): for every input with category none, the scorer
short-circuits to confidence 0 with rationale "No violation detected"
and performs zero external oracle calls. -/
theorem score_short_circuits_on_none (oracle : Except String (ℚ × String))
    (content reasoning : String) :
    ConfidenceScorer.score oracle content Cat.none reasoning =
      ((0, "No violation detected"), 0) := rfl

/-- C2: at the concrete seeded spam policy (warn 0.6, mute 0.8, flag 0.9)
an update setting warn_threshold to 0.95 is rejected with the
invalid-thresholds failure and appends no audit entry, yet the stored
policy's warn_threshold is left at 0.95: the field assignments hit the
stored object before validation, so partial writes survive the rejected
update. -/
theorem update_policy_partial_write_survives :
    (update_policy initialState "policy-spam"
      { warn_threshold := some 0.95 } "audit-1" 1).2 =
      Except.error ApiError.invalidThresholds ∧
    (storeGet (update_policy initialState "policy-spam"
      { warn_threshold := some 0.95 } "audit-1" 1).1.policies
      "policy-spam").map Policy.warn_threshold = some 0.95 ∧
    (storeGet initialState.policies "policy-spam").map Policy.warn_threshold =
      some 0.6 ∧
    (update_policy initialState "policy-spam"
      { warn_threshold := some 0.95 } "audit-1" 1).1.audit = [] := by
  have h1 : storeGet initialState.policies "policy-spam" = some spamPolicy := by
    simp [initialState, defaultPolicies, storeGet, spamPolicy]
  refine ⟨?_, ?_, ?_, ?_⟩
  · simp only [update_policy, h1]
    norm_num [mergePolicy, spamPolicy]
  · simp only [update_policy, h1]
    norm_num [mergePolicy, spamPolicy, storeGet_storeSet_self]
  · rw [h1]
    norm_num [spamPolicy]
  · simp only [update_policy, h1]
    norm_num [mergePolicy, spamPolicy, initialState]

/-- C10: a string filter supplied as the empty string is treated exactly
as an absent filter, for the audit-log listing (decision_id), the
decision listing (room_id and participant_id) and the audit export in
either format (decision_id): the Python truthiness guard skips the
filter for both None and "". -/
theorem empty_string_filters_ignored (entries : List AuditLogEntry)
    (decisions : List ModerationDecision) (format : ExportFormat)
    (action_type : Option AuditActionType) (actor : Option AuditActor)
    (start_time end_time : Option Nat) (classification : Option Cat)
    (action : Option ModerationAction) (status : Option ModerationStatus)
    (min_confidence max_confidence : Option ℚ) (limit offset : Nat) :
    list_audit_logs entries (some "") action_type actor start_time end_time
        limit offset =
      list_audit_logs entries Option.none action_type actor start_time
        end_time limit offset ∧
    list_decisions decisions (some "") (some "") classification action status
        min_confidence max_confidence limit offset =
      list_decisions decisions Option.none Option.none classification action
        status min_confidence max_confidence limit offset ∧
    export_audit_logs entries format (some "") action_type actor start_time
        end_time =
      export_audit_logs entries format Option.none action_type actor
        start_time end_time := by
  refine ⟨rfl, rfl, rfl⟩

/-- C1: every completed execute appends exactly one decision_created
audit entry referencing the decision id; exactly one action-executed
family entry (with the fixed warn/mute/flag mapping and actor ai)
references the same id when the action is not none and none otherwise;
and the stored decision's final status is executed exactly when the
action is not none, pending otherwise. -/
theorem executor_audit_completeness (dstore : List (String × ModerationDecision))
    (astore : List AuditLogEntry) (decision_id : String) (now : Nat)
    (aid1 aid2 : String) (input : ModerationInput) (category : Cat)
    (confidence : ℚ) (action : ModerationAction) (policy_id : Option String)
    (reasoning : String) :
    (((ActionExecutor.execute dstore astore decision_id now aid1 aid2 input
        category confidence action policy_id reasoning).2.1.drop
        astore.length).countP
      (fun e => decide (e.action_type = AuditActionType.decision_created ∧
        e.decision_id = some decision_id)) = 1) ∧
    (((ActionExecutor.execute dstore astore decision_id now aid1 aid2 input
        category confidence action policy_id reasoning).2.1.drop
        astore.length).countP
      (fun e => isActionExecutedFamily e.action_type &&
        decide (e.decision_id = some decision_id)) =
      if action = ModerationAction.none then 0 else 1) ∧
    (((ActionExecutor.execute dstore astore decision_id now aid1 aid2 input
        category confidence action policy_id reasoning).2.1.drop
        astore.length).countP
      (fun e => decide (e.action_type = action_type_map action ∧
        e.decision_id = some decision_id ∧ e.actor = AuditActor.ai)) =
      if action = ModerationAction.none then 0 else 1) ∧
    ((storeGet (ActionExecutor.execute dstore astore decision_id now aid1 aid2
        input category confidence action policy_id reasoning).1
        decision_id).map ModerationDecision.status =
      some (if action = ModerationAction.none then ModerationStatus.pending
            else ModerationStatus.executed)) := by
  cases action <;>
    simp [ActionExecutor.execute, mkDecision, action_type_map,
      isActionExecutedFamily, List.append_assoc, List.drop_left,
      List.countP_cons, List.countP_nil, storeGet_storeSet_self]

/-- C5: when the classification oracle fails with message e, the classify
stage substitutes category none, records "Error during classification: e"
as the rationale and sets the pipeline error flag; the pipeline still
runs to completion and produces a decision with classification none,
action none (and status pending), for every scoring oracle and state. -/
theorem pipeline_fail_safe_classification (s : SysState) (e : String)
    (scOracle : Except String (ℚ × String)) (input : ModerationInput)
    (decision_id : String) (now : Nat) (aid1 aid2 : String) :
    (runModerationPipeline s (Except.error e) scOracle input decision_id now
      aid1 aid2).2.error = some e ∧
    (runModerationPipeline s (Except.error e) scOracle input decision_id now
      aid1 aid2).2.classification_reasoning =
      some ("Error during classification: " ++ e) ∧
    ∃ d, (runModerationPipeline s (Except.error e) scOracle input decision_id
        now aid1 aid2).2.decision = some d ∧
      d.classification = Cat.none ∧ d.action = ModerationAction.none ∧
      d.status = ModerationStatus.pending :=
  ⟨rfl, rfl, ⟨_, rfl, rfl, rfl, rfl⟩⟩

/-- C4: on a decision whose status is not overturned, the first overturn
succeeds, sets the status to overturned and appends exactly one
decision_overturned audit entry for that decision; a second overturn then
fails with the already-overturned conflict and leaves the state (hence
the audit ledger) unchanged, so exactly one decision_overturned entry
was appended in total. -/
theorem overturn_idempotent (s : SysState) (did reason1 reason2 aid1 aid2 : String)
    (now1 now2 : Nat) (d : ModerationDecision)
    (hget : storeGet s.decisions did = some d)
    (hst : d.status ≠ ModerationStatus.overturned) :
    (overturn_decision s did reason1 aid1 now1).2 =
      Except.ok ModerationStatus.overturned ∧
    (storeGet (overturn_decision s did reason1 aid1 now1).1.decisions did).map
      ModerationDecision.status = some ModerationStatus.overturned ∧
    ((overturn_decision s did reason1 aid1 now1).1.audit.drop
      s.audit.length).countP
      (fun e => decide (e.action_type = AuditActionType.decision_overturned ∧
        e.decision_id = some did)) = 1 ∧
    (overturn_decision (overturn_decision s did reason1 aid1 now1).1 did
      reason2 aid2 now2).2 = Except.error ApiError.alreadyOverturned ∧
    (overturn_decision (overturn_decision s did reason1 aid1 now1).1 did
      reason2 aid2 now2).1 = (overturn_decision s did reason1 aid1 now1).1 := by
  simp only [overturn_decision, hget, if_neg hst]
  simp [overturn_decision, storeGet_storeSet_self, List.drop_left,
    List.countP_cons, List.countP_nil]

/-- C4 witness: the double overturn behaviour evaluated on a concrete
state holding one pending decision. -/
theorem overturn_idempotent_witness :
    storeGet sampleState.decisions "dec-1" = some sampleDecision ∧
    sampleDecision.status ≠ ModerationStatus.overturned ∧
    ((overturn_decision sampleState "dec-1" "abusive" "audit-1" 5).2 =
      Except.ok ModerationStatus.overturned ∧
    (storeGet (overturn_decision sampleState "dec-1" "abusive" "audit-1"
      5).1.decisions "dec-1").map
      ModerationDecision.status = some ModerationStatus.overturned ∧
    ((overturn_decision sampleState "dec-1" "abusive" "audit-1" 5).1.audit.drop
      sampleState.audit.length).countP
      (fun e => decide (e.action_type = AuditActionType.decision_overturned ∧
        e.decision_id = some "dec-1")) = 1 ∧
    (overturn_decision (overturn_decision sampleState "dec-1" "abusive"
      "audit-1" 5).1 "dec-1" "again" "audit-2" 6).2 =
      Except.error ApiError.alreadyOverturned ∧
    (overturn_decision (overturn_decision sampleState "dec-1" "abusive"
      "audit-1" 5).1 "dec-1" "again" "audit-2" 6).1 =
      (overturn_decision sampleState "dec-1" "abusive" "audit-1" 5).1) :=
  ⟨rfl, by decide,
   overturn_idempotent sampleState "dec-1" "abusive" "again" "audit-1"
     "audit-2" 5 6 sampleDecision rfl (by decide)⟩

/-- C8 (counterexample): a toggle on the seeded harassment policy
changes its enabled field and appends one policy_updated entry, but that
entry's metadata carries no changes map (it records the old and new
enabled flags directly); and an update supplying name = "Harassment",
the value already stored, changes no stored field yet still appends an
audit entry. -/
theorem policy_audit_changes_map_counterexample :
    ((toggle_policy initialState "policy-harassment" "audit-1" 1).1.audit.map
      (fun e => (e.action_type, e.metadata.map AuditMetadata.hasChangesMap))) =
      [(AuditActionType.policy_updated, some false)] ∧
    (storeGet (toggle_policy initialState "policy-harassment" "audit-1"
      1).1.policies "policy-harassment").map Policy.enabled = some false ∧
    (update_policy initialState "policy-harassment"
      { name := some "Harassment" } "audit-2" 2).1.audit.length = 1 ∧
    (storeGet (update_policy initialState "policy-harassment"
      { name := some "Harassment" } "audit-2" 2).1.policies
      "policy-harassment").map Policy.name = some "Harassment" := by
  have h1 : storeGet initialState.policies "policy-harassment" =
      some harassmentPolicy := by
    simp [initialState, defaultPolicies, storeGet, harassmentPolicy]
  refine ⟨?_, ?_, ?_, ?_⟩
  · simp only [toggle_policy, h1]
    norm_num [initialState, harassmentPolicy, AuditMetadata.hasChangesMap]
  · simp only [toggle_policy, h1]
    norm_num [storeGet_storeSet_self, harassmentPolicy]
  · simp only [update_policy, h1]
    norm_num [mergePolicy, policyChanges, harassmentPolicy, initialState]
  · simp only [update_policy, h1]
    norm_num [mergePolicy, policyChanges, harassmentPolicy,
      storeGet_storeSet_self]

/-- C8 (amended): a successful update that supplies at least one field
appends exactly one policy_updated entry whose metadata carries the
changes map for the supplied fields (recording old and new even when
they are equal), an update supplying no field appends nothing, and a
rejected update appends nothing; a toggle always appends exactly one
policy_updated entry whose metadata records the old and new enabled
flags directly rather than a changes map. -/
theorem policy_update_toggle_audit_amended (s : SysState) (pid : String)
    (upd : PolicyUpdate) (aid : String) (now : Nat) (aid2 : String)
    (now2 : Nat) (policy : Policy)
    (hget : storeGet s.policies pid = some policy) :
    ((update_policy s pid upd aid now).1.audit.drop s.audit.length =
      if (mergePolicy policy upd).warn_threshold ≤
           (mergePolicy policy upd).mute_threshold ∧
         (mergePolicy policy upd).mute_threshold ≤
           (mergePolicy policy upd).flag_threshold then
        if (policyChanges policy upd).isEmpty then [] else
          [{ audit_id := aid, decision_id := Option.none,
             action_type := AuditActionType.policy_updated,
             actor := AuditActor.admin,
             reason := "Policy \x27" ++ (mergePolicy policy upd).name ++
               "\x27 updated",
             timestamp := now,
             metadata := some (AuditMetadata.policyUpdated pid
               (mergePolicy policy upd).name (policyChanges policy upd)) }]
      else []) ∧
    ((toggle_policy s pid aid2 now2).1.audit.drop s.audit.length =
      [{ audit_id := aid2, decision_id := Option.none,
         action_type := AuditActionType.policy_updated,
         actor := AuditActor.admin,
         reason := "Policy \x27" ++ policy.name ++ "\x27 " ++
           (if !policy.enabled then "enabled" else "disabled"),
         timestamp := now2,
         metadata := some (AuditMetadata.policyToggled pid policy.name
           policy.enabled (!policy.enabled)) }]) := by
  refine ⟨?_, ?_⟩
  · simp only [update_policy, hget]
    split_ifs with hv hc <;> simp [List.drop_left, List.drop_length]
  · simp only [toggle_policy, hget]
    simp [List.drop_left]

/-- C8 witness: the amended audit behaviour evaluated on the seeded spam
policy, for an update supplying a valid warn_threshold and a toggle. -/
theorem policy_update_toggle_audit_amended_witness :
    storeGet initialState.policies "policy-spam" = some spamPolicy ∧
    (((update_policy initialState "policy-spam"
        { warn_threshold := some 0.55 } "audit-1" 1).1.audit.drop
        initialState.audit.length =
      if (mergePolicy spamPolicy { warn_threshold := some 0.55 }).warn_threshold ≤
           (mergePolicy spamPolicy { warn_threshold := some 0.55 }).mute_threshold ∧
         (mergePolicy spamPolicy { warn_threshold := some 0.55 }).mute_threshold ≤
           (mergePolicy spamPolicy { warn_threshold := some 0.55 }).flag_threshold then
        if (policyChanges spamPolicy { warn_threshold := some 0.55 }).isEmpty
        then [] else
          [{ audit_id := "audit-1", decision_id := Option.none,
             action_type := AuditActionType.policy_updated,
             actor := AuditActor.admin,
             reason := "Policy \x27" ++
               (mergePolicy spamPolicy { warn_threshold := some 0.55 }).name ++
               "\x27 updated",
             timestamp := 1,
             metadata := some (AuditMetadata.policyUpdated "policy-spam"
               (mergePolicy spamPolicy { warn_threshold := some 0.55 }).name
               (policyChanges spamPolicy { warn_threshold := some 0.55 })) }]
      else []) ∧
    ((toggle_policy initialState "policy-spam" "audit-2" 2).1.audit.drop
        initialState.audit.length =
      [{ audit_id := "audit-2", decision_id := Option.none,
         action_type := AuditActionType.policy_updated,
         actor := AuditActor.admin,
         reason := "Policy \x27" ++ spamPolicy.name ++ "\x27 " ++
           (if !spamPolicy.enabled then "enabled" else "disabled"),
         timestamp := 2,
         metadata := some (AuditMetadata.policyToggled "policy-spam"
           spamPolicy.name spamPolicy.enabled (!spamPolicy.enabled)) }])) :=
  ⟨by simp [initialState, defaultPolicies, storeGet, spamPolicy],
   policy_update_toggle_audit_amended initialState "policy-spam"
     { warn_threshold := some 0.55 } "audit-1" 1 "audit-2" 2 spamPolicy
     (by simp [initialState, defaultPolicies, storeGet, spamPolicy])⟩

/-! Helper lemmas about the executor and the pipeline, shared by the
status-transition and snapshot-durability theorems. -/

theorem execute_decisions_get_ne (dstore : List (String × ModerationDecision))
    (astore : List AuditLogEntry) (did : String) (now : Nat)
    (a1 a2 : String) (input : ModerationInput) (category : Cat)
    (confidence : ℚ) (action : ModerationAction) (policy_id : Option String)
    (reasoning : String) (id : String) (hne : id ≠ did) :
    storeGet (ActionExecutor.execute dstore astore did now a1 a2 input
      category confidence action policy_id reasoning).1 id =
      storeGet dstore id := by
  unfold ActionExecutor.execute
  by_cases h : action = ModerationAction.none <;>
    simp [h, mkDecision, storeGet_storeSet_ne _ _ _ _ hne]

theorem execute_audit_extends (dstore : List (String × ModerationDecision))
    (astore : List AuditLogEntry) (did : String) (now : Nat)
    (a1 a2 : String) (input : ModerationInput) (category : Cat)
    (confidence : ℚ) (action : ModerationAction) (policy_id : Option String)
    (reasoning : String) :
    ∃ tail, (ActionExecutor.execute dstore astore did now a1 a2 input
      category confidence action policy_id reasoning).2.1 =
      astore ++ tail := by
  unfold ActionExecutor.execute
  by_cases h : action = ModerationAction.none
  · rw [if_neg (by simp [h])]
    exact ⟨_, rfl⟩
  · rw [if_pos h]
    exact ⟨_, List.append_assoc _ _ _⟩

theorem runModerationPipeline_stores_shape (s : SysState)
    (cl : Except String (Cat × String)) (sc : Except String (ℚ × String))
    (input : ModerationInput) (did : String) (now : Nat) (a1 a2 : String) :
    ∃ category confidence action policy_id reasoning,
      (runModerationPipeline s cl sc input did now a1 a2).1.decisions =
        (ActionExecutor.execute s.decisions s.audit did now a1 a2 input
          category confidence action policy_id reasoning).1 ∧
      (runModerationPipeline s cl sc input did now a1 a2).1.audit =
        (ActionExecutor.execute s.decisions s.audit did now a1 a2 input
          category confidence action policy_id reasoning).2.1 := by
  cases cl with
  | ok v =>
      obtain ⟨c, r⟩ := v
      exact ⟨_, _, _, _, _, rfl, rfl⟩
  | error e => exact ⟨_, _, _, _, _, rfl, rfl⟩

theorem applyOp_audit_extends (s : SysState) (op : Op) :
    ∃ tail, (applyOp s op).audit = s.audit ++ tail := by
  cases op with
  | pipeline cl sc input did now a1 a2 =>
      obtain ⟨c, v, a, p, r, _, haud⟩ :=
        runModerationPipeline_stores_shape s cl sc input did now a1 a2
      obtain ⟨tail, htail⟩ :=
        execute_audit_extends s.decisions s.audit did now a1 a2 input c v a p r
      refine ⟨tail, ?_⟩
      simp only [applyOp]
      rw [haud, htail]
  | review did approved notes aid now =>
      simp only [applyOp, review_decision]
      cases h : storeGet s.decisions did with
      | none =>
          simp only [h]
          exact ⟨[], by simp⟩
      | some d =>
          simp only [h]
          exact ⟨_, rfl⟩
  | overturn did reason aid now =>
      simp only [applyOp, overturn_decision]
      cases h : storeGet s.decisions did with
      | none =>
          simp only [h]
          exact ⟨[], by simp⟩
      | some d =>
          by_cases hst : d.status = ModerationStatus.overturned
          · simp only [h, if_pos hst]
            exact ⟨[], by simp⟩
          · simp only [h, if_neg hst]
            exact ⟨_, rfl⟩

theorem mem_applyOps_audit (s : SysState) (ops : List Op) (e : AuditLogEntry)
    (he : e ∈ s.audit) : e ∈ (applyOps s ops).audit := by
  induction ops generalizing s with
  | nil => exact he
  | cons op rest ih =>
      obtain ⟨tail, htail⟩ := applyOp_audit_extends s op
      exact ih (applyOp s op) (by rw [htail]; exact List.mem_append_left tail he)

/-- C6 (counterexample): a reachable sequence pipeline run, overturn,
review moves the decision's status out of the overturned state: after
the overturn the stored status is overturned, and the subsequent review
succeeds and sets it to reviewed. -/
theorem review_escapes_overturned_counterexample :
    (storeGet (applyOps initialState
      [Op.pipeline (Except.ok (Cat.harassment, "targeted insults"))
        (Except.ok (0.9, "clear")) sampleInput "dec-1" 1 "audit-1" "audit-2",
       Op.overturn "dec-1" "appeal" "audit-3" 2]).decisions "dec-1").map
      ModerationDecision.status = some ModerationStatus.overturned ∧
    (storeGet (applyOps initialState
      [Op.pipeline (Except.ok (Cat.harassment, "targeted insults"))
        (Except.ok (0.9, "clear")) sampleInput "dec-1" 1 "audit-1" "audit-2",
       Op.overturn "dec-1" "appeal" "audit-3" 2,
       Op.review "dec-1" true Option.none "audit-4" 3]).decisions
      "dec-1").map ModerationDecision.status =
      some ModerationStatus.reviewed := by
  set s1 := applyOp initialState (Op.pipeline
    (Except.ok (Cat.harassment, "targeted insults"))
    (Except.ok (0.9, "clear")) sampleInput "dec-1" 1 "audit-1" "audit-2")
    with hs1def
  have h1 : (storeGet s1.decisions "dec-1").map ModerationDecision.status =
      some ModerationStatus.executed := by
    rw [hs1def]
    have hscore : ConfidenceScorer.score (Except.ok (0.9, "clear"))
        sampleInput.content Cat.harassment "targeted insults" =
        ((0.9, "clear"), 1) := by
      norm_num [ConfidenceScorer.score]
      all_goals decide
    have hdecide : ActionDecider.decide (storeGetAll initialState.policies)
        Cat.harassment 0.9 =
        (ModerationAction.flag_for_review, some "policy-harassment") := by
      norm_num [ActionDecider.decide, getPolicyForCategory, storeGetAll,
        initialState, defaultPolicies]
      all_goals decide
    simp [applyOp, runModerationPipeline, classify_node, score_node,
      decide_node, action_node, hscore, hdecide, ActionExecutor.execute,
      mkDecision, storeGet_storeSet_self]
  obtain ⟨d1, hd1, hst1⟩ := Option.map_eq_some'.mp h1
  have h2 : storeGet (applyOp s1
      (Op.overturn "dec-1" "appeal" "audit-3" 2)).decisions "dec-1" =
      some { d1 with status := ModerationStatus.overturned } := by
    simp only [applyOp, overturn_decision, hd1]
    rw [if_neg (by rw [hst1]; decide)]
    exact storeGet_storeSet_self _ _ _
  have h3 : storeGet (applyOp (applyOp s1
      (Op.overturn "dec-1" "appeal" "audit-3" 2))
      (Op.review "dec-1" true Option.none "audit-4" 3)).decisions "dec-1" =
      some { d1 with status := ModerationStatus.reviewed } := by
    have h2x := h2
    simp only [applyOp] at h2x
    simp only [applyOp, review_decision, h2x]
    exact storeGet_storeSet_self _ _ _
  constructor
  · simp only [applyOps]
    rw [← hs1def, h2]
    rfl
  · simp only [applyOps]
    rw [← hs1def, h3]
    rfl

/-- C6 (amended): under a fresh pipeline decision id, every core
operation either leaves a stored decision untouched or changes only its
status, and the only status changes are review setting reviewed from any
starting status (including overturned) and overturn setting overturned
from any non-overturned status; the pipeline never modifies an existing
decision. -/
theorem decision_status_transitions_amended (s : SysState) (op : Op)
    (id : String) (d d' : ModerationDecision) (hfresh : opFresh s op)
    (hd : storeGet s.decisions id = some d)
    (hd' : storeGet (applyOp s op).decisions id = some d') :
    d' = { d with status := d'.status } ∧
    (d'.status = d.status ∨ d'.status = ModerationStatus.reviewed ∨
      (d'.status = ModerationStatus.overturned ∧
        d.status ≠ ModerationStatus.overturned)) := by
  cases op with
  | pipeline cl sc input did now a1 a2 =>
      have hfresh' : storeGet s.decisions did = Option.none := hfresh
      have hne : id ≠ did := by
        intro h
        rw [h, hfresh'] at hd
        exact Option.noConfusion hd
      obtain ⟨c, v, a, p, r, hdec, haud⟩ :=
        runModerationPipeline_stores_shape s cl sc input did now a1 a2
      have heq : storeGet (applyOp s
          (Op.pipeline cl sc input did now a1 a2)).decisions id =
          storeGet s.decisions id := by
        simp only [applyOp]
        rw [hdec]
        exact execute_decisions_get_ne _ _ _ _ _ _ _ _ _ _ _ _ _ hne
      rw [heq, hd] at hd'
      obtain rfl : d = d' := Option.some.inj hd'
      exact ⟨rfl, Or.inl rfl⟩
  | review did approved notes aid now =>
      simp only [applyOp, review_decision] at hd'
      cases h : storeGet s.decisions did with
      | none =>
          simp only [h] at hd'
          rw [hd] at hd'
          obtain rfl : d = d' := Option.some.inj hd'
          exact ⟨rfl, Or.inl rfl⟩
      | some dr =>
          simp only [h] at hd'
          by_cases hid : id = did
          · subst hid
            have hdr : dr = d := Option.some.inj (by rw [h] at hd; exact hd)
            rw [storeGet_storeSet_self] at hd'
            obtain rfl : _ = d' := Option.some.inj hd'
            subst hdr
            exact ⟨rfl, Or.inr (Or.inl rfl)⟩
          · rw [storeGet_storeSet_ne _ _ _ _ hid, hd] at hd'
            obtain rfl : d = d' := Option.some.inj hd'
            exact ⟨rfl, Or.inl rfl⟩
  | overturn did reason aid now =>
      simp only [applyOp, overturn_decision] at hd'
      cases h : storeGet s.decisions did with
      | none =>
          simp only [h] at hd'
          rw [hd] at hd'
          obtain rfl : d = d' := Option.some.inj hd'
          exact ⟨rfl, Or.inl rfl⟩
      | some dr =>
          by_cases hst : dr.status = ModerationStatus.overturned
          · simp only [h, if_pos hst] at hd'
            rw [hd] at hd'
            obtain rfl : d = d' := Option.some.inj hd'
            exact ⟨rfl, Or.inl rfl⟩
          · simp only [h, if_neg hst] at hd'
            by_cases hid : id = did
            · subst hid
              have hdr : dr = d := Option.some.inj (by rw [h] at hd; exact hd)
              rw [storeGet_storeSet_self] at hd'
              obtain rfl : _ = d' := Option.some.inj hd'
              subst hdr
              exact ⟨rfl, Or.inr (Or.inr ⟨rfl, hst⟩)⟩
            · rw [storeGet_storeSet_ne _ _ _ _ hid, hd] at hd'
              obtain rfl : d = d' := Option.some.inj hd'
              exact ⟨rfl, Or.inl rfl⟩

/-- C6 witness: the amended transition property applied to a concrete
review of the sample pending decision. -/
theorem decision_status_transitions_amended_witness :
    opFresh sampleState (Op.review "dec-1" true Option.none "audit-1" 5) ∧
    storeGet sampleState.decisions "dec-1" = some sampleDecision ∧
    storeGet (applyOp sampleState (Op.review "dec-1" true Option.none
      "audit-1" 5)).decisions "dec-1" =
      some { sampleDecision with status := ModerationStatus.reviewed } ∧
    ({ sampleDecision with status := ModerationStatus.reviewed } =
      { sampleDecision with status := ModerationStatus.reviewed } ∧
     (ModerationStatus.reviewed = sampleDecision.status ∨
      ModerationStatus.reviewed = ModerationStatus.reviewed ∨
      (ModerationStatus.reviewed = ModerationStatus.overturned ∧
       sampleDecision.status ≠ ModerationStatus.overturned))) :=
  ⟨trivial, rfl, rfl,
   decision_status_transitions_amended sampleState
     (Op.review "dec-1" true Option.none "audit-1" 5) "dec-1" sampleDecision
     { sampleDecision with status := ModerationStatus.reviewed }
     trivial rfl rfl⟩

/-- C9: the decision_created audit entry appended by execute carries a
metadata snapshot of the decision exactly as created (status pending,
whatever the decided action) together with the original input, and that
very entry is still present unchanged in the audit ledger after any
further sequence of core operations (the executor's own executed write,
reviews, overturns, more pipeline runs), since these only append. -/
theorem decision_created_snapshot_durable (s : SysState)
    (input : ModerationInput) (decision_id : String) (now : Nat)
    (aid1 aid2 : String) (category : Cat) (confidence : ℚ)
    (action : ModerationAction) (policy_id : Option String)
    (reasoning : String) (ops : List Op) :
    ∃ e,
      e ∈ ((ActionExecutor.execute s.decisions s.audit decision_id now aid1
        aid2 input category confidence action policy_id reasoning).2.1.drop
        s.audit.length) ∧
      e.action_type = AuditActionType.decision_created ∧
      e.actor = AuditActor.ai ∧
      e.metadata = some (AuditMetadata.decisionCreated
        (mkDecision input decision_id now category confidence action policy_id
          reasoning) input) ∧
      (mkDecision input decision_id now category confidence action policy_id
        reasoning).status = ModerationStatus.pending ∧
      e ∈ (applyOps
        { s with
          decisions := (ActionExecutor.execute s.decisions s.audit decision_id
            now aid1 aid2 input category confidence action policy_id
            reasoning).1,
          audit := (ActionExecutor.execute s.decisions s.audit decision_id now
            aid1 aid2 input category confidence action policy_id
            reasoning).2.1 } ops).audit := by
  refine ⟨{ audit_id := aid1
            decision_id := some decision_id
            action_type := AuditActionType.decision_created
            actor := AuditActor.ai
            reason := "Moderation decision created: " ++ category.value ++
              " with confidence " ++ floatFmt confidence
            timestamp := now
            metadata := some (AuditMetadata.decisionCreated
              (mkDecision input decision_id now category confidence action
                policy_id reasoning) input) }, ?_, rfl, rfl, rfl, rfl, ?_⟩
  · unfold ActionExecutor.execute
    by_cases h : action = ModerationAction.none
    · rw [if_neg (by simp [h])]
      simp [List.drop_left, mkDecision]
    · rw [if_pos h]
      simp [List.append_assoc, List.drop_left, mkDecision]
  · apply mem_applyOps_audit
    unfold ActionExecutor.execute
    by_cases h : action = ModerationAction.none
    · rw [if_neg (by simp [h])]
      simp [mkDecision]
    · rw [if_pos h]
      simp [mkDecision]
